import Mathlib

/-!
Verification of the FIFA World Cup dashboard (`src/code_1.py`).

The program reads all HTML tables from a Wikipedia page, selects the first
one whose (stringified, whitespace-stripped) column labels contain `Year`,
a winner column (`Winner`/`Winners`) and a runner-up column
(`Runner-up`/`Runners-up`/`Runners‑up`, the last with a non-breaking
hyphen), reduces it to three columns, canonicalizes `West Germany` to
`Germany` in the winner and runner-up columns, aggregates win counts per
country, and serves two lookup callbacks (by country, by year).

The embedding below models the table-selection stage over raw parsed
tables, and the canonicalization/aggregation/lookup stages over a list of
`Final` records (the three-column frame `df`).
-/

namespace Dashboard

/-- A cell of a parsed HTML table: pandas object dtype, either an integer
(parsed year) or text. -/
inductive Cell where
  | int (n : Int)
  | str (s : String)
deriving DecidableEq, Repr

/-- One candidate table parsed by `pd.read_html`: named columns and rows. -/
structure RawTable where
  columns : List String
  rows : List (List Cell)
deriving DecidableEq, Repr

/-- Remove the trailing run of characters satisfying `p`. -/
def stripRight (p : Char → Bool) : List Char → List Char
  | [] => []
  | c :: cs =>
    let r := stripRight p cs
    if r.isEmpty && p c then [] else c :: r

/-- Python `str.strip()`: remove leading and trailing whitespace. -/
def pyStrip (s : String) : String :=
  String.mk (stripRight Char.isWhitespace (s.data.dropWhile Char.isWhitespace))

/-- `table.columns = table.columns.astype(str).str.strip()` (line 26):
column labels are converted to text (already text in this model) and
whitespace-trimmed. -/
def normalizeTable (t : RawTable) : RawTable :=
  { t with columns := t.columns.map pyStrip }

/-- The acceptance test of the selection loop (lines 29-30):
`'Year' in cols and ('Winner' in cols or 'Winners' in cols) and
('Runner-up' in cols or 'Runners-up' in cols or 'Runners‑up' in cols)`.
The third runner-up spelling uses a non-breaking hyphen (U+2011). -/
def isSuitable (cols : List String) : Bool :=
  cols.contains "Year" &&
    (cols.contains "Winner" || cols.contains "Winners") &&
    (cols.contains "Runner-up" || cols.contains "Runners-up" ||
      cols.contains "Runners‑up")

/-- The selection loop (lines 24-32): normalize each table's labels in
source order and take the first table passing `isSuitable`. -/
def selectTable (tables : List RawTable) : Option RawTable :=
  (tables.map normalizeTable).find? (fun t => isSuitable t.columns)

/-- The message of the `ValueError` raised at line 35. -/
def noTableMsg : String :=
  "No suitable table found on the Wikipedia page. Please check the page structure."

/-- Lines 34-35: if no table matched, startup raises `ValueError`; the
raise is not caught anywhere, so the program halts before building the
dashboard. -/
def loadTable (tables : List RawTable) : Except String RawTable :=
  match selectTable tables with
  | some t => Except.ok t
  | none => Except.error noTableMsg

/-- Lines 38-43: pick the winner column name, preferring `Winners`. -/
def winnerColOf (cols : List String) : Option String :=
  if cols.contains "Winners" then some "Winners"
  else if cols.contains "Winner" then some "Winner"
  else none

/-- Lines 45-52: pick the runner-up column name, preferring the
non-breaking-hyphen plural spelling. -/
def runnerColOf (cols : List String) : Option String :=
  if cols.contains "Runners‑up" then some "Runners‑up"
  else if cols.contains "Runners-up" then some "Runners-up"
  else if cols.contains "Runner-up" then some "Runner-up"
  else none

/-- The accepted winner spellings, as an explicit enumerated set. -/
def winnerSpellings : List String := ["Winner", "Winners"]

/-- The accepted runner-up spellings, as an explicit enumerated set:
plain-hyphen singular, plain-hyphen plural, non-breaking-hyphen plural. -/
def runnerSpellings : List String := ["Runner-up", "Runners-up", "Runners‑up"]

/-- The spec's description of a suitable table: the column-label set has a
year-labeled column, at least one accepted spelling of winner, and at
least one accepted spelling of runner-up. -/
def specSuitable (cols : List String) : Prop :=
  "Year" ∈ cols ∧ (∃ w ∈ winnerSpellings, w ∈ cols) ∧
    (∃ r ∈ runnerSpellings, r ∈ cols)

instance (cols : List String) : Decidable (specSuitable cols) := by
  unfold specSuitable; infer_instance

/-- One Final record: a row of the reduced three-column frame
`df[['Year', winner_col, runner_col]]` (line 55). -/
structure Final where
  year : Int
  winner : String
  runnerUp : String
deriving DecidableEq, Repr

/-- The fixed historical-name mapping `{'West Germany': 'Germany'}` used by
`Series.replace` (lines 58-59): exact matches only. -/
def canonName (s : String) : String :=
  if s = "West Germany" then "Germany" else s

/-- Lines 58-59 applied to one record: replace `West Germany` in the
winner and runner-up fields; the year is untouched. -/
def canonFinal (r : Final) : Final :=
  { r with winner := canonName r.winner, runnerUp := canonName r.runnerUp }

/-- Lines 58-59 applied to the whole frame. -/
def canonicalize (ds : List Final) : List Final := ds.map canonFinal

/-- `Series.value_counts` (line 62): each distinct value paired with its
number of occurrences (presentation order abstracted). -/
def tally (keys : List String) : List (String × Nat) :=
  keys.dedup.map (fun k => (k, keys.count k))

/-- Lines 62-63: win counts per country, from the winner column of the
canonicalized frame, renamed to `['Country', 'Wins']`. -/
def winCounts (ds : List Final) : List (String × Nat) :=
  tally (ds.map Final.winner)

/-- Look a country up in the win-count aggregate. -/
def lookupWins (wc : List (String × Nat)) (c : String) : Option Nat :=
  (wc.find? (fun p => p.1 == c)).map Prod.snd

/-- Line 145: `df[df[winner_col] == selected_country].shape[0]`. -/
def championships (ds : List Final) (c : String) : Nat :=
  (ds.filter (fun r => r.winner == c)).length

/-- Line 146: `df[df[runner_col] == selected_country].shape[0]`. -/
def secondPlace (ds : List Final) (c : String) : Nat :=
  (ds.filter (fun r => r.runnerUp == c)).length

/-- Line 149: years in which the country won, in source order. -/
def winYears (ds : List Final) (c : String) : List Int :=
  (ds.filter (fun r => r.winner == c)).map Final.year

/-- Line 150: years in which the country was runner-up, in source order. -/
def runnerYears (ds : List Final) (c : String) : List Int :=
  (ds.filter (fun r => r.runnerUp == c)).map Final.year

/-- `", ".join(str(y) for y in years)`. -/
def joinComma (ys : List Int) : String :=
  String.intercalate ", " (ys.map toString)

/-- The value returned by the country callback: either a plain message or
the five-line stats block (heading plus five paragraph strings). -/
inductive CountryView where
  | message (text : String)
  | block (heading titles second appearances winLine runnerLine : String)
deriving DecidableEq, Repr

def countryPrompt : String := "Please select a nation from the dropdown above."

def yearPrompt : String := "Please select a year from the dropdown above."

def noDataMsg : String := "Data not available for the selected year."

/-- `update_country_stats` (lines 140-165). Python's `not selected_country`
is true for `None` and for the empty string, so both produce the prompt. -/
def updateCountryStats (sel : Option String) (ds : List Final) : CountryView :=
  match sel with
  | none => .message countryPrompt
  | some c =>
    if c = "" then .message countryPrompt
    else
      .block (c ++ " – World Cup Record")
        ("Championship Titles: " ++ toString (championships ds c))
        ("Second-Place Finishes: " ++ toString (secondPlace ds c))
        ("Overall Finals Appearances: " ++
          toString (championships ds c + secondPlace ds c))
        (if (winYears ds c).isEmpty then "Championship Years: None"
         else "Championship Years: " ++ joinComma (winYears ds c))
        (if (runnerYears ds c).isEmpty then "Runner-Up Years: None"
         else "Runner-Up Years: " ++ joinComma (runnerYears ds c))

/-- `update_year_details` (lines 172-180). Python's `not selected_year` is
true for `None` and for the integer `0`, so both produce the prompt;
otherwise the frame is filtered by exact year match and the first matching
row (`match.iloc[0]`) is reported, or the no-data message if none match. -/
def updateYearDetails (sel : Option Int) (ds : List Final) : String :=
  match sel with
  | none => yearPrompt
  | some y =>
    if y = 0 then yearPrompt
    else
      match ds.find? (fun r => r.year == y) with
      | none => noDataMsg
      | some r =>
        "In " ++ toString y ++ ", the title was clinched by " ++ r.winner ++
          ", with " ++ r.runnerUp ++ " finishing as runner-up."

end Dashboard

namespace Dashboard

lemma find?_beq_eq (l : List String) (c : String) :
    l.find? (fun k => k == c) = if c ∈ l then some c else none := by
  induction l with
  | nil => simp
  | cons a tl ih =>
    by_cases h : a = c
    · subst h; simp
    · rw [List.find?_cons_of_neg]
      · rw [ih]
        have : ¬ c = a := fun hc => h hc.symm
        simp [List.mem_cons, this]
      · simp [h]

lemma lookupWins_tally (keys : List String) (c : String) :
    lookupWins (tally keys) c = if c ∈ keys then some (keys.count c) else none := by
  unfold lookupWins tally
  rw [List.find?_map]
  have hcomp : ((fun p : String × Nat => p.1 == c) ∘ fun k => (k, keys.count k))
      = fun k => k == c := rfl
  rw [hcomp, find?_beq_eq]
  by_cases h : c ∈ keys
  · simp [h, List.mem_dedup]
  · simp [h, List.mem_dedup]

lemma winners_canonicalize (ds : List Final) :
    (canonicalize ds).map Final.winner = ds.map (fun r => canonName r.winner) := by
  unfold canonicalize
  rw [List.map_map]
  rfl

lemma count_winner_eq_filter (ds : List Final) (c : String) :
    (ds.map Final.winner).count c = (ds.filter (fun r => r.winner == c)).length := by
  rw [List.count_eq_countP, List.countP_map, List.countP_eq_length_filter]
  rfl

end Dashboard

namespace Dashboard

lemma canonName_ne_west (s : String) : canonName s ≠ "West Germany" := by
  unfold canonName
  by_cases h : s = "West Germany"
  · simp [h]
  · simp [h]

lemma canonName_eq_germany (s : String) :
    canonName s = "Germany" ↔ s = "Germany" ∨ s = "West Germany" := by
  unfold canonName
  by_cases h : s = "West Germany" <;> simp [h]

/-- Claim C2: for every country present in the win-count aggregate (built from the
canonicalized frame, lines 58-63), the stored count equals exactly the number
of Final records whose canonicalized winner equals that country; and a
zero-finals input yields an empty aggregate. -/
theorem winCounts_exact (ds : List Final) (c : String) (n : Nat)
    (h : lookupWins (winCounts (canonicalize ds)) c = some n) :
    n = (ds.filter (fun r => canonName r.winner == c)).length ∧
      winCounts (canonicalize []) = [] := by
  refine ⟨?_, rfl⟩
  unfold winCounts at h
  rw [winners_canonicalize, lookupWins_tally] at h
  by_cases hc : c ∈ ds.map (fun r => canonName r.winner)
  · rw [if_pos hc] at h
    have hn : n = (ds.map (fun r => canonName r.winner)).count c :=
      (Option.some_injective _ h.symm)
    rw [hn, List.count_eq_countP, List.countP_map, List.countP_eq_length_filter]
    rfl
  · rw [if_neg hc] at h
    exact absurd h (by simp)

theorem winCounts_exact_witness :
    lookupWins (winCounts (canonicalize
        [⟨1954, "West Germany", "Hungary"⟩, ⟨1974, "West Germany", "Netherlands"⟩,
          ⟨2014, "Germany", "Argentina"⟩])) "Germany" = some 3 ∧
      (3 : Nat) = (([⟨1954, "West Germany", "Hungary"⟩, ⟨1974, "West Germany", "Netherlands"⟩,
          ⟨2014, "Germany", "Argentina"⟩] : List Final).filter
            (fun r => canonName r.winner == "Germany")).length :=
  ⟨by decide, (winCounts_exact _ "Germany" 3 (by decide)).1⟩

end Dashboard

namespace Dashboard

lemma canonGermany_indicator (w : String) :
    (if w == "Germany" then 1 else 0) + (if w == "West Germany" then 1 else 0)
      = (if canonName w == "Germany" then 1 else 0) := by
  unfold canonName
  by_cases hw : w = "West Germany"
  · simp [hw]
  · by_cases hg : w = "Germany" <;> simp [hw, hg]

/-- Claim C3: canonicalization (lines 58-59) precedes aggregation (line 62): the
aggregate has no entry for `West Germany`, its wins are counted under
`Germany`, and a (1954, West Germany, Hungary) record contributes 1954 to
the Championship Years for Germany. -/
theorem canonicalizeBeforeAggregation (ds : List Final) :
    lookupWins (winCounts (canonicalize ds)) "West Germany" = none ∧
    ((canonicalize ds).map Final.winner).count "Germany"
      = (ds.map Final.winner).count "Germany"
        + (ds.map Final.winner).count "West Germany" ∧
    (Final.mk 1954 "West Germany" "Hungary" ∈ ds →
      (1954 : Int) ∈ winYears (canonicalize ds) "Germany") := by
  refine ⟨?_, ?_, ?_⟩
  · unfold winCounts
    rw [winners_canonicalize, lookupWins_tally, if_neg]
    intro hmem
    obtain ⟨r, _, hr⟩ := List.mem_map.mp hmem
    exact canonName_ne_west r.winner hr
  · induction ds with
    | nil => rfl
    | cons r tl ih =>
      have hcons : canonicalize (r :: tl) = canonFinal r :: canonicalize tl := rfl
      rw [hcons]
      simp only [List.map_cons, List.count_cons]
      rw [ih]
      have hwin : (canonFinal r).winner = canonName r.winner := rfl
      rw [hwin, ← canonGermany_indicator r.winner]
      omega
  · intro hmem
    unfold winYears
    refine List.mem_map.mpr ⟨⟨1954, "Germany", "Hungary"⟩, ?_, rfl⟩
    refine List.mem_filter.mpr ⟨?_, by decide⟩
    exact List.mem_map.mpr ⟨⟨1954, "West Germany", "Hungary"⟩, hmem, by decide⟩

theorem canonicalizeBeforeAggregation_witness :
    lookupWins (winCounts (canonicalize [⟨1954, "West Germany", "Hungary"⟩]))
        "West Germany" = none ∧
      (1954 : Int) ∈ winYears (canonicalize [⟨1954, "West Germany", "Hungary"⟩]) "Germany" :=
  ⟨(canonicalizeBeforeAggregation _).1,
    (canonicalizeBeforeAggregation _).2.2 (by decide)⟩

/-- Claim C7: round-trip: for every country present in the win-count aggregate, the
Championship Titles count computed by the country callback (line 145) equals
the aggregate's win count for that country (lines 62-63). -/
theorem roundTrip_titles (ds : List Final) (c : String)
    (h : c ∈ (winCounts (canonicalize ds)).map Prod.fst) :
    lookupWins (winCounts (canonicalize ds)) c
      = some (championships (canonicalize ds) c) := by
  unfold winCounts at h ⊢
  rw [winners_canonicalize] at h ⊢
  have htal : (tally (ds.map fun r => canonName r.winner)).map Prod.fst
      = (ds.map fun r => canonName r.winner).dedup := by
    unfold tally
    rw [List.map_map]
    have hid : (Prod.fst ∘ fun k : String =>
        (k, List.count k (ds.map fun r => canonName r.winner))) = id := rfl
    rw [hid, List.map_id]
  rw [htal] at h
  have hkeys : c ∈ ds.map (fun r => canonName r.winner) := List.mem_dedup.mp h
  rw [lookupWins_tally, if_pos hkeys]
  congr 1
  unfold championships
  rw [← count_winner_eq_filter, winners_canonicalize]

theorem roundTrip_titles_witness :
    lookupWins (winCounts (canonicalize
        [⟨1930, "Uruguay", "Argentina"⟩, ⟨1950, "Uruguay", "Brazil"⟩])) "Uruguay"
      = some (championships (canonicalize
        [⟨1930, "Uruguay", "Argentina"⟩, ⟨1950, "Uruguay", "Brazil"⟩]) "Uruguay") :=
  roundTrip_titles _ "Uruguay" (by decide)

end Dashboard

namespace Dashboard

lemma stripRight_cons (p : Char → Bool) (c : Char) (cs : List Char) :
    stripRight p (c :: cs) =
      if (stripRight p cs).isEmpty && p c then [] else c :: stripRight p cs := rfl

lemma stripRight_idem (p : Char → Bool) : ∀ l, stripRight p (stripRight p l) = stripRight p l := by
  intro l
  induction l with
  | nil => rfl
  | cons c cs ih =>
    rw [stripRight_cons]
    by_cases h : (stripRight p cs).isEmpty && p c
    · rw [if_pos h]; rfl
    · rw [if_neg h, stripRight_cons, ih, if_neg h]

lemma dropWhile_head_false (p : Char → Bool) :
    ∀ (l : List Char) (x : Char) (xs : List Char), l.dropWhile p = x :: xs → p x = false := by
  intro l
  induction l with
  | nil => intro x xs h; cases h
  | cons a tl ih =>
    intro x xs h
    by_cases ha : p a
    · rw [List.dropWhile_cons_of_pos ha] at h; exact ih x xs h
    · rw [List.dropWhile_cons_of_neg ha] at h
      cases h
      simpa using ha

lemma pyStrip_idem (s : String) : pyStrip (pyStrip s) = pyStrip s := by
  unfold pyStrip
  have hdata : (String.mk (stripRight Char.isWhitespace
      (s.data.dropWhile Char.isWhitespace))).data
        = stripRight Char.isWhitespace (s.data.dropWhile Char.isWhitespace) := rfl
  rw [hdata]
  have hfix : (stripRight Char.isWhitespace
      (s.data.dropWhile Char.isWhitespace)).dropWhile Char.isWhitespace
        = stripRight Char.isWhitespace (s.data.dropWhile Char.isWhitespace) := by
    cases hm : s.data.dropWhile Char.isWhitespace with
    | nil => rfl
    | cons x xs =>
      have hx : Char.isWhitespace x = false := dropWhile_head_false _ _ x xs hm
      rw [stripRight_cons]
      by_cases h : (stripRight Char.isWhitespace xs).isEmpty && Char.isWhitespace x
      · rw [if_pos h]; rfl
      · rw [if_neg h]
        exact List.dropWhile_cons_of_neg (by simp [hx])
  rw [hfix, stripRight_idem]

lemma normalizeTable_idem (t : RawTable) : normalizeTable (normalizeTable t) = normalizeTable t := by
  unfold normalizeTable
  simp only [List.map_map]
  congr 1
  apply List.map_congr_left
  intro a _
  exact pyStrip_idem a

/-- Claim C8: table selection is idempotent: selecting from the already
label-normalized table collection yields the identical selected table, and
hence the identical winner/runner-up column mapping (lines 24-55). -/
theorem tableSelection_idem (tables : List RawTable) :
    selectTable (tables.map normalizeTable) = selectTable tables ∧
      (selectTable (tables.map normalizeTable)).map
          (fun t => (winnerColOf t.columns, runnerColOf t.columns))
        = (selectTable tables).map
          (fun t => (winnerColOf t.columns, runnerColOf t.columns)) := by
  have hsel : selectTable (tables.map normalizeTable) = selectTable tables := by
    unfold selectTable
    rw [List.map_map]
    congr 1
    apply List.map_congr_left
    intro t _
    exact normalizeTable_idem t
  exact ⟨hsel, by rw [hsel]⟩

lemma isSuitable_iff (cols : List String) : isSuitable cols = true ↔ specSuitable cols := by
  simp [isSuitable, specSuitable, winnerSpellings, runnerSpellings]
  tauto

lemma isSuitable_false_iff (cols : List String) :
    isSuitable cols = false ↔ ¬ specSuitable cols := by
  rw [← isSuitable_iff]
  cases isSuitable cols <;> simp

/-- Claim C1: the selector accepts the first table, in source order, whose
normalized (stringified, whitespace-trimmed) column labels contain `Year`,
an accepted winner spelling, and an accepted runner-up spelling, the
accepted spellings being the explicit enumerated sets `winnerSpellings`
(singular and plural) and `runnerSpellings` (plain-hyphen singular,
plain-hyphen plural, non-breaking-hyphen plural). -/
theorem tableSelector_firstMatch (tables : List RawTable) (t : RawTable) :
    selectTable tables = some t ↔
      specSuitable t.columns ∧
        ∃ pre post, tables.map normalizeTable = pre ++ t :: post ∧
          ∀ u ∈ pre, ¬ specSuitable u.columns := by
  unfold selectTable
  rw [List.find?_eq_some]
  simp only [Bool.not_eq_true', isSuitable_iff, isSuitable_false_iff]

theorem tableSelector_firstMatch_witness :
    selectTable [⟨["Date", "Venue"], []⟩,
        ⟨[" Year ", "Winners", "Runners-up"], [[.int 1930, .str "Uruguay", .str "Argentina"]]⟩]
      = some ⟨["Year", "Winners", "Runners-up"],
          [[.int 1930, .str "Uruguay", .str "Argentina"]]⟩ :=
  (tableSelector_firstMatch _ _).mpr
    ⟨by decide, [⟨["Date", "Venue"], []⟩],
      [], by decide, by decide⟩

/-- Claim C4: if no candidate table passes the column test, startup fails with
the descriptive `ValueError` of line 35, and no table is ever produced. -/
theorem noSuitableTable_fatal (tables : List RawTable)
    (h : ∀ t ∈ tables, ¬ specSuitable (normalizeTable t).columns) :
    loadTable tables = Except.error noTableMsg ∧
      ∀ t, loadTable tables ≠ Except.ok t := by
  have hsel : selectTable tables = none := by
    unfold selectTable
    rw [List.find?_eq_none]
    intro x hx
    obtain ⟨t, ht, rfl⟩ := List.mem_map.mp hx
    simp only [Bool.not_eq_true, isSuitable_false_iff]
    exact h t ht
  unfold loadTable
  rw [hsel]
  exact ⟨rfl, fun t hcontra => by cases hcontra⟩

theorem noSuitableTable_fatal_witness :
    loadTable [⟨["Date", "Venue"], []⟩] = Except.error noTableMsg :=
  (noSuitableTable_fatal [⟨["Date", "Venue"], []⟩] (by decide)).1

end Dashboard

namespace Dashboard

/-- Claim C5 counterexample: the year `0`, absent from a one-record dataset, is
falsy in Python (`if not selected_year`), so the callback answers with the
no-selection prompt, not with the defensive "data not available" message
the claim requires for every absent year. -/
theorem yearLookup_absent_zero_counterexample :
    ([Final.mk 1930 "Uruguay" "Argentina"].find? (fun r => r.year == 0) = none) ∧
      updateYearDetails (some 0) [Final.mk 1930 "Uruguay" "Argentina"] = yearPrompt ∧
      updateYearDetails (some 0) [Final.mk 1930 "Uruguay" "Argentina"] ≠ noDataMsg := by
  refine ⟨rfl, rfl, ?_⟩
  intro h
  exact absurd h (by decide)

/-- Claim C5 (amended): for every nonzero selected year absent from the dataset,
the year callback (lines 172-180) returns "Data not available for the
selected year." — a value, never an exception; being a pure function of the
selection and the immutable frame, it touches no other state. -/
theorem yearLookup_absent (ds : List Final) (y : Int) (hy : y ≠ 0)
    (habs : ∀ r ∈ ds, r.year ≠ y) :
    updateYearDetails (some y) ds = noDataMsg := by
  have hfind : ds.find? (fun r => r.year == y) = none := by
    rw [List.find?_eq_none]
    intro r hr
    simpa using habs r hr
  unfold updateYearDetails
  simp [hy, hfind]

theorem yearLookup_absent_witness :
    updateYearDetails (some 2000) [Final.mk 1930 "Uruguay" "Argentina"] = noDataMsg :=
  yearLookup_absent _ 2000 (by decide) (by decide)

/-- Claim C6: for a selected country (a nonempty name, since the empty string is
Python-falsy) and a selected year present in the dataset (nonzero, for the
same reason), the callbacks produce exactly the specified text formats,
with Overall Finals Appearances the sum of titles and second-place
finishes, year lists comma-joined or `None` when empty, and the year
sentence built from the first matching record. -/
theorem lookupFormats (ds : List Final) (c : String) (y : Int) (r : Final)
    (hc : c ≠ "") (hy : y ≠ 0)
    (hr : ds.find? (fun q => q.year == y) = some r) :
    updateCountryStats (some c) ds =
      CountryView.block (c ++ " – World Cup Record")
        ("Championship Titles: " ++ toString (championships ds c))
        ("Second-Place Finishes: " ++ toString (secondPlace ds c))
        ("Overall Finals Appearances: " ++
          toString (championships ds c + secondPlace ds c))
        (if (winYears ds c).isEmpty then "Championship Years: None"
         else "Championship Years: " ++ joinComma (winYears ds c))
        (if (runnerYears ds c).isEmpty then "Runner-Up Years: None"
         else "Runner-Up Years: " ++ joinComma (runnerYears ds c)) ∧
      updateYearDetails (some y) ds =
        "In " ++ toString y ++ ", the title was clinched by " ++ r.winner ++
          ", with " ++ r.runnerUp ++ " finishing as runner-up." := by
  constructor
  · unfold updateCountryStats
    simp [hc]
  · unfold updateYearDetails
    simp [hy, hr]

theorem lookupFormats_witness :
    updateCountryStats (some "Uruguay") [Final.mk 1930 "Uruguay" "Argentina"] =
      CountryView.block "Uruguay – World Cup Record" "Championship Titles: 1"
        "Second-Place Finishes: 0" "Overall Finals Appearances: 1"
        "Championship Years: 1930" "Runner-Up Years: None" ∧
      updateYearDetails (some 1930) [Final.mk 1930 "Uruguay" "Argentina"] =
        "In 1930, the title was clinched by Uruguay, with Argentina finishing as runner-up." := by
  have h := lookupFormats [Final.mk 1930 "Uruguay" "Argentina"] "Uruguay" 1930
    (Final.mk 1930 "Uruguay" "Argentina") (by decide) (by decide) (by decide)
  exact ⟨h.1.trans (by decide), h.2.trans (by decide)⟩

/-- Claim C9: with no selection made (`None`), each callback returns its prompt
message, for every dataset — the result does not depend on the data, so no
lookup computation is performed. -/
theorem noSelection_prompts (ds : List Final) :
    updateCountryStats none ds = CountryView.message countryPrompt ∧
      updateYearDetails none ds = yearPrompt :=
  ⟨rfl, rfl⟩

/-- Claim C10: canonicalization is a per-cell exact-match replacement: the year is
always untouched; a winner or runner-up value is changed only when it is
exactly `West Germany`, in which case it becomes `Germany`; every other
value passes through unmodified. -/
theorem canonicalization_frame (r : Final) :
    (canonFinal r).year = r.year ∧
      (r.winner ≠ "West Germany" → (canonFinal r).winner = r.winner) ∧
      (r.runnerUp ≠ "West Germany" → (canonFinal r).runnerUp = r.runnerUp) ∧
      (r.winner = "West Germany" → (canonFinal r).winner = "Germany") ∧
      (r.runnerUp = "West Germany" → (canonFinal r).runnerUp = "Germany") := by
  unfold canonFinal canonName
  refine ⟨rfl, ?_, ?_, ?_, ?_⟩ <;> intro h <;> simp [h]

theorem canonicalization_frame_witness :
    (canonFinal (Final.mk 1938 "Italy" "Hungary")).winner = "Italy" ∧
      (canonFinal (Final.mk 1954 "West Germany" "Hungary")).winner = "Germany" :=
  ⟨(canonicalization_frame (Final.mk 1938 "Italy" "Hungary")).2.1 (by decide),
    (canonicalization_frame (Final.mk 1954 "West Germany" "Hungary")).2.2.2.1 (by decide)⟩

end Dashboard
